import Mathlib

/-!
Shallow embedding of the task-lifecycle orchestration of `auto_odm_start`
(source file `src/__main__.py`), together with proofs about its behaviour.

Remote calls and fallible OS operations are supplied as explicit `Except`
oracles; every operation records the externally visible actions it performs
as a list of `Effect`s, in program order.  Pure path and string manipulation
is translated directly from the CPython semantics of the library calls the
source uses (`os.path.basename`, `os.path.dirname`, `os.path.splitext`,
`str.lower`, `str.endswith`).
-/

namespace AutoOdm

/-- Entry of a directory listing: one name reported by `os.listdir`, together
with the result of the `os.path.isfile` check on the joined path. -/
structure DirEntry where
  name : String
  is_file : Bool
deriving DecidableEq

/-- Characters after the last path separator, computed on the character
list: this is `os.path.basename` for POSIX paths. -/
def basenameData (l : List Char) : List Char :=
  (l.reverse.takeWhile (fun c => c != '/')).reverse

/-- os.path.basename for POSIX paths: the part of the path after the last
separator. -/
def basename (s : String) : String :=
  String.mk (basenameData s.data)

/-- os.path.dirname for POSIX paths: the prefix of the path up to and
including the last separator, with trailing separators stripped unless the
whole head consists of separators. -/
def dirname (s : String) : String :=
  let head := (s.data.reverse.dropWhile (fun c => c != '/')).reverse
  if head.isEmpty || head.all (fun c => c == '/') then String.mk head
  else String.mk ((head.reverse.dropWhile (fun c => c == '/')).reverse)

/-- os.path.splitext, restricted to names without a path separator, which is
how the program always uses it (on a basename, or on a directory entry).
A name splits at its last dot exactly when some character of the name
strictly before that dot is not a dot; otherwise the extension is empty. -/
def splitext (s : String) : String × String :=
  let rev := s.data.reverse
  let revExt := rev.takeWhile (fun c => c != '.')
  if revExt.length = rev.length then (s, "")
  else
    let pre := (rev.drop (revExt.length + 1)).reverse
    if pre.any (fun c => c != '.') then
      (String.mk pre, String.mk ('.' :: revExt.reverse))
    else (s, "")

/-- str.lower, restricted to ASCII: Python lowercases Unicode-wide, this
embedding lowercases exactly the basic latin letters A-Z and leaves every
other character unchanged.  Statements that depend on case folding beyond
the letters A-Z therefore carry explicit ASCII guards; in the `.jpg` suffix
test the restriction is invisible, since no character case-folds onto `.`,
`j`, `p` or `g`. -/
def lowerStr (s : String) : String :=
  String.mk (s.data.map Char.toLower)

/-- ASCII test for a character, by code point. -/
def isAsciiChar (c : Char) : Bool :=
  decide (c.toNat ≤ 127)

/-- ASCII test for a string: every character is ASCII, so that the embedded
case folding agrees exactly with str.lower on it. -/
def isAsciiStr (s : String) : Bool :=
  s.data.all isAsciiChar

/-- ASCII uppercase test (the characters A-Z), by code point. -/
def isAsciiUpper (c : Char) : Bool :=
  decide (65 ≤ c.toNat ∧ c.toNat ≤ 90)

/-- str.endswith, as a suffix test on the character lists. -/
def strEndsWith (s suffix : String) : Bool :=
  suffix.data.isSuffixOf s.data

/-- TokenFileHandler._parsetk: the token of a trigger path is the lowercased
file base name with the extension stripped. -/
def parsetk (str_path : String) : String :=
  lowerStr (splitext (basename str_path)).1

/-- TokenFileHandler.on_created: for a file-creation event, if the token of
the created path is one of the configured tokens, return the launcher
invocation `(directory, dataset name, token)`; otherwise the event is
ignored.  Directory events are always ignored. -/
def on_created (tokens : List String) (is_directory : Bool) (src_path : String) :
    Option (String × String × String) :=
  if is_directory then none
  else
    let tk := parsetk src_path
    if tk ∈ tokens then
      let dn := dirname src_path
      some (dn, basename dn, tk)
    else none

/-- Token list computed at startup in auto_odm_start: the extension-stripped
names of the `.preset` entries of the presets directory, taken verbatim
(no case folding). -/
def computeTokens (entries : List String) : List String :=
  (entries.filter (fun t => strEndsWith t ".preset")).map (fun t => (splitext t).1)

/-- lista_arquivos_jpg: the regular files directly inside the directory whose
name, lowercased, ends in `.jpg`.  The source returns each kept path
relativised to the working directory; only the joined path is modelled, since
nothing later inspects its shape. -/
def lista_arquivos_jpg (diretorio : String) (listing : List DirEntry) : List String :=
  (listing.filter (fun e => e.is_file && strEndsWith (lowerStr e.name) ".jpg")).map
    (fun e => diretorio ++ "/" ++ e.name)

/-- write_status: writing `TASK_<state>` inside the dataset directory with a
one-line body via `print(payload, file=fd)`.  The result is the pair of the
path written and the full file content (payload plus the newline that
`print` appends).  The source's default for the state argument is
`"RUNNING"`; callers here always pass it explicitly. -/
def write_status (dn : String) (task_uuid_or_last_error : String) (task_status : String) :
    String × String :=
  (dn ++ "/" ++ ("TASK_" ++ task_status), task_uuid_or_last_error ++ "\n")

/-- Modelled from the spec: an external observer reads the state back from a
marker file name `TASK_<STATE>` by stripping the `TASK_` prefix.  This is the
read half of the round-trip property; no code in the repository reads
markers. -/
def markerState (fn : String) : Option String :=
  if fn.data.take 5 = "TASK_".data then some (String.mk (fn.data.drop 5)) else none

/-- Modelled from the spec: an external observer reads the single-line body
of a marker file, i.e. the content up to the first newline. -/
def firstLine (s : String) : String :=
  String.mk (s.data.takeWhile (fun c => c != '\n'))

/-- Lifecycle states a remote task can report (pyodm.types.TaskStatus). -/
inductive TaskStatus
  | QUEUED
  | RUNNING
  | COMPLETED
  | FAILED
  | CANCELED
deriving DecidableEq

/-- Result of `task.info()`: the fields of the remote task the program
reads. -/
structure TaskInfo where
  uuid : String
  name : String
  status : TaskStatus
  last_error : String
deriving DecidableEq

/-- Externally visible actions of the orchestration code, in program order.
Marker writes and removals are relative to the dataset directory of the
operation that emits them. -/
inductive Effect
  | loadPreset (tk : String)
  | submit (name : String)
  | startRunThread
  | startDownloadThread
  | writeStatus (state payload : String)
  | removeFile (name : String)
  | registryAdd (uuid : String)
  | registryRemove (uuid : String)
  | setEvent
  | downloadZip (destination : String)
  | renameFile (src dst : String)
  | cancelTask (uuid : String)
  | getTask (uuid : String)
  | sleep
  | log (msg : String)
deriving DecidableEq

/-- Oracle outcomes for the remote calls made by run_task. -/
structure RunEnv where
  info : Except String TaskInfo
  wait : Except String Unit

/-- Outcome of one run_task invocation: the registry (the global
task_running_list) after the call, the effects performed, and the exception,
if any, escaping the function (killing its thread). -/
structure RunResult where
  registry : List String
  trace : List Effect
  uncaught : Option String
deriving DecidableEq

/-- run_task (source lines 174-188).  Mirrors Python local-variable
semantics: when the initial `task.info()` raises, the local name `i` is never
bound, so the finally block's `task_running_list.remove(i.uuid)` raises
UnboundLocalError; the surrounding `except ValueError` does not catch it, the
exception escapes the function, and `completed.set()` is skipped.  When
`task.info()` succeeds, a failure of `wait_for_completion` is caught and
logged (the two handlers differ only in log text), and the finally block
removes the first occurrence of the uuid (absence would be a tolerated
ValueError) and sets the completion event. -/
def run_task (env : RunEnv) (registry : List String) : RunResult :=
  match env.info with
  | Except.error e =>
      { registry := registry
        trace := [Effect.log ("Unexpected Error: " ++ e)]
        uncaught := some "UnboundLocalError: i" }
  | Except.ok i =>
      let logs : List Effect :=
        match env.wait with
        | Except.ok _ => []
        | Except.error e => [Effect.log ("Task Error: " ++ e)]
      { registry := (registry ++ [i.uuid]).erase i.uuid
        trace := [Effect.registryAdd i.uuid] ++ logs ++
          [Effect.registryRemove i.uuid, Effect.setEvent]
        uncaught := none }

/-- Oracle outcomes for the remote and OS calls made by download_assets
after the completion event has fired: `task.info()`, `task.download_zip`
(returning the downloaded path on success), `os.rename`, and `task.cancel()`
in the orphan branch. -/
structure DownloadEnv where
  info : Except String TaskInfo
  zipResult : Except String String
  renameResult : Except String Unit
  cancelResult : Except String Unit

/-- Try/except part of download_assets (source lines 193-212): the status
query, the per-state disposition, and the two exception handlers, which
answer any exception with a `FAILED` marker carrying the exception detail
(the two handlers differ only in log text; the generic one is recorded). -/
def download_assets_body (env : DownloadEnv) (destination dn : String) : List Effect :=
  (match env.info with
   | Except.error e =>
       [Effect.log ("Unexpected Error: " ++ e), Effect.writeStatus "FAILED" e]
   | Except.ok i =>
     match i.status with
     | TaskStatus.COMPLETED =>
       match env.zipResult with
       | Except.error e =>
           [Effect.downloadZip destination, Effect.log ("Unexpected Error: " ++ e),
            Effect.writeStatus "FAILED" e]
       | Except.ok fnzip =>
           Effect.downloadZip destination ::
           Effect.renameFile fnzip (fnzip.replace i.uuid i.name) ::
           (match env.renameResult with
            | Except.error e =>
                [Effect.log ("Unexpected Error: " ++ e), Effect.writeStatus "FAILED" e]
            | Except.ok _ =>
                [Effect.writeStatus "DOWNLOAD_COMPLETED" (fnzip.replace i.uuid i.name)])
     | TaskStatus.FAILED => [Effect.writeStatus "FAILED" i.last_error]
     | TaskStatus.CANCELED => [Effect.writeStatus "CANCELED" i.uuid]
     | _ =>
       Effect.cancelTask i.uuid ::
       (match env.cancelResult with
        | Except.error e =>
            [Effect.log ("Unexpected Error: " ++ e), Effect.writeStatus "FAILED" e]
        | Except.ok _ => [Effect.writeStatus "CANCELED" i.uuid]))

/-- download_assets (source lines 191-213), from the point where
`completed.wait()` has returned: the try/except body above, followed by
`remove_token_file(dn)` — deleting the `TASK_RUNNING` marker, absence
tolerated — as the unconditional final statement. -/
def download_assets (env : DownloadEnv) (destination dn : String) : List Effect :=
  download_assets_body env destination dn ++ [Effect.removeFile "TASK_RUNNING"]

/-- Oracle outcomes for one launch: the directory listing of the dataset
directory, the result of read_options_from_preset (the options blob on
success), and the combined result of `node.create_task` plus the immediate
`task.info()` (both sit inside the same try block). -/
structure LaunchEnv where
  listing : List DirEntry
  preset : Except String String
  submit : Except String TaskInfo

/-- Outcome of one starts_threads invocation: the effects performed and the
exception, if any, escaping the function uncaught. -/
structure LaunchResult where
  trace : List Effect
  uncaught : Option String
deriving DecidableEq

/-- starts_threads (source lines 216-242).  An empty JPG list returns at
once.  read_options_from_preset is called outside any try block, so its
exception escapes the function.  A submission failure is caught: it logs,
writes an `UPLOAD_FAILED` marker with the error, removes the file named by
the token (the trigger file; absence tolerated) and returns.  On success the
run thread is started, the `RUNNING` marker is written with the task uuid,
the token file is removed, and the download thread is started. -/
def starts_threads (dn ds tk : String) (env : LaunchEnv) : LaunchResult :=
  let arquivos_jpg := lista_arquivos_jpg dn env.listing
  if arquivos_jpg.isEmpty then { trace := [], uncaught := none }
  else
    match env.preset with
    | Except.error e => { trace := [Effect.loadPreset tk], uncaught := some e }
    | Except.ok _ =>
      match env.submit with
      | Except.error e =>
          { trace := [Effect.loadPreset tk, Effect.submit ds,
                      Effect.log ("Unexpected error uploading files: " ++ e),
                      Effect.writeStatus "UPLOAD_FAILED" e, Effect.removeFile tk]
            uncaught := none }
      | Except.ok i =>
          { trace := [Effect.loadPreset tk, Effect.submit ds, Effect.startRunThread,
                      Effect.writeStatus "RUNNING" i.uuid, Effect.removeFile tk,
                      Effect.startDownloadThread]
            uncaught := none }

/-- Composition of the dispatcher and the launcher: what one file-creation
event does, end to end, inside the repository's code.  The `action` wired up
in auto_odm_start is `starts_threads` with the configured presets directory,
output directory and node. -/
def dispatch_created (tokens : List String) (is_directory : Bool) (src_path : String)
    (env : LaunchEnv) : LaunchResult :=
  match on_created tokens is_directory src_path with
  | none => { trace := [], uncaught := none }
  | some (dn, ds, tk) => starts_threads dn ds tk env

/-- Body of the shutdown loop of cancel_all_pending_tasks for a single
snapshot entry: `node.get_task(uuid)` constructs the task handle on the
client side, the remote request inside the try block is `cancel`; an
exception from it is caught and logged, and the fixed delay runs in either
case. -/
def cancelStep (cancelOutcome : String → Except String Unit) (uuid : String) : List Effect :=
  [Effect.getTask uuid, Effect.cancelTask uuid] ++
  (match cancelOutcome uuid with
   | Except.ok _ => []
   | Except.error _ => [Effect.log ("Error canceling the task " ++ uuid)]) ++
  [Effect.sleep]

/-- Loop of cancel_all_pending_tasks over the registry snapshot. -/
def cancelLoop (cancelOutcome : String → Except String Unit) : List String → List Effect
  | [] => []
  | uuid :: rest => cancelStep cancelOutcome uuid ++ cancelLoop cancelOutcome rest

/-- cancel_all_pending_tasks (source lines 245-253): log the shutdown notice,
then run the cancellation loop over the snapshot `l` of task_running_list
taken by the caller. -/
def cancel_all_pending_tasks (cancelOutcome : String → Except String Unit)
    (l : List String) : List Effect :=
  Effect.log "Shutting down, about to cancel all running tasks" :: cancelLoop cancelOutcome l

/-- Marker writes that the spec counts as terminal. -/
def isTerminalMarker : Effect → Bool
  | Effect.writeStatus st _ =>
      st == "DOWNLOAD_COMPLETED" || st == "FAILED" || st == "CANCELED"
  | _ => false

/-- Job-creation requests in a trace. -/
def isSubmit : Effect → Bool
  | Effect.submit _ => true
  | _ => false

/-- Number of occurrences of one effect in a trace. -/
def countEff (tr : List Effect) (x : Effect) : Nat :=
  (tr.filter (fun e => decide (e = x))).length

theorem countEff_append (a b : List Effect) (x : Effect) :
    countEff (a ++ b) x = countEff a x + countEff b x := by
  simp [countEff, List.filter_append]

theorem takeWhile_eq_of_stop (p : Char → Bool) (c : Char) (rest : List Char)
    (hc : p c = false) :
    ∀ m : List Char, (∀ x ∈ m, p x = true) → (m ++ c :: rest).takeWhile p = m := by
  intro m
  induction m with
  | nil => intro _; simp [List.takeWhile, hc]
  | cons a t ih =>
    intro hm
    have ha : p a = true := hm a (by simp)
    have ht := ih (fun x hx => hm x (by simp [hx]))
    simp [List.takeWhile, ha, ht]

theorem basename_append_of_no_sep (a b : String) (hb : ∀ c ∈ b.data, (c != '/') = true) :
    basename ((a ++ "/") ++ b) = b := by
  have hdata : ((a ++ "/") ++ b).data = a.data ++ '/' :: b.data := by
    simp [String.data_append]
  have hrev : (a.data ++ '/' :: b.data).reverse = b.data.reverse ++ '/' :: a.data.reverse := by
    simp
  have htake : (b.data.reverse ++ '/' :: a.data.reverse).takeWhile (fun c => c != '/')
      = b.data.reverse :=
    takeWhile_eq_of_stop _ _ _ (by simp) _ (fun x hx => hb x (List.mem_reverse.mp hx))
  show String.mk (basenameData ((a ++ "/") ++ b).data) = b
  rw [hdata]
  unfold basenameData
  rw [hrev, htake, List.reverse_reverse]

theorem firstLine_append_newline (payload : String)
    (h : ∀ c ∈ payload.data, (c != '\n') = true) :
    firstLine (payload ++ "\n") = payload := by
  show String.mk (((payload ++ "\n").data).takeWhile (fun c => c != '\n')) = payload
  have hdata : (payload ++ "\n").data = payload.data ++ '\n' :: [] := by
    simp [String.data_append]
  rw [hdata, takeWhile_eq_of_stop _ _ _ (by simp) _ h]

/-- Claim C10: for every state in RUNNING, UPLOAD_FAILED, FAILED, CANCELED,
DOWNLOAD_COMPLETED and every newline-free payload, writing the status marker
and reading it back through the marker-file name and the file body recovers
the same state and the same payload. -/
theorem c10_write_status_round_trip (dn payload state : String)
    (hstate : state ∈ ["RUNNING", "UPLOAD_FAILED", "FAILED", "CANCELED", "DOWNLOAD_COMPLETED"])
    (hpayload : ∀ c ∈ payload.data, (c != '\n') = true) :
    markerState (basename (write_status dn payload state).1) = some state ∧
    firstLine (write_status dn payload state).2 = payload := by
  refine ⟨?_, firstLine_append_newline payload hpayload⟩
  have hshape : (write_status dn payload state).1 = (dn ++ "/") ++ ("TASK_" ++ state) := by
    simp [write_status, String.append_assoc]
  rw [hshape]
  fin_cases hstate <;>
    rw [basename_append_of_no_sep _ _ (by decide)] <;> decide

/-- Claim C10 witness: the round trip at a concrete directory, payload and
state. -/
theorem c10_write_status_round_trip_witness :
    markerState (basename (write_status "/data/site1" "node unreachable" "FAILED").1) =
        some "FAILED" ∧
    firstLine (write_status "/data/site1" "node unreachable" "FAILED").2 = "node unreachable" :=
  c10_write_status_round_trip "/data/site1" "node unreachable" "FAILED" (by decide) (by decide)

/-- Claim C3: the task runner does not always fire the completion event.  If
the initial `task.info()` call raises, the `finally` block's reference to the
unbound local `i` raises UnboundLocalError, which the inner
`except ValueError` does not catch, so the exception escapes run_task and
`completed.set()` is never executed; the registry is left untouched. -/
theorem c3_run_task_info_error_skips_signal :
    (run_task { info := Except.error "NodeConnectionError", wait := Except.ok () } []).uncaught
        = some "UnboundLocalError: i" ∧
    Effect.setEvent ∉
      (run_task { info := Except.error "NodeConnectionError", wait := Except.ok () } []).trace ∧
    (run_task { info := Except.error "NodeConnectionError", wait := Except.ok () } []).registry
        = [] := by
  decide

/-- Claim C6: when no directory entry is a regular file whose lowercased name
ends in `.jpg`, the launcher does nothing at all: no preset is loaded, no job
is created, no marker is written, and it returns normally. -/
theorem c6_empty_dataset_noop (dn ds tk : String) (env : LaunchEnv)
    (h : ∀ e ∈ env.listing, (e.is_file && strEndsWith (lowerStr e.name) ".jpg") = false) :
    starts_threads dn ds tk env = { trace := [], uncaught := none } := by
  have hnil : lista_arquivos_jpg dn env.listing = [] := by
    unfold lista_arquivos_jpg
    rw [List.filter_eq_nil_iff.mpr (fun a ha => by simp [h a ha])]
    rfl
  simp [starts_threads, hnil]

/-- Claim C6 witness: a dataset whose directory holds a non-image file and a
subdirectory named like an image is a no-op. -/
theorem c6_empty_dataset_noop_witness :
    starts_threads "/data/site1" "site1" "a"
        { listing := [⟨"readme.txt", true⟩, ⟨"sub.jpg", false⟩]
          preset := Except.ok "preset-options"
          submit := Except.ok ⟨"u1", "site1", TaskStatus.RUNNING, ""⟩ } =
      { trace := [], uncaught := none } :=
  c6_empty_dataset_noop "/data/site1" "site1" "a" _ (by decide)

/-- Claim C5: when submission fails, the launcher writes an `UPLOAD_FAILED`
marker carrying the error, removes the token file, and returns normally
without starting either worker thread and without touching the registry. -/
theorem c5_upload_failure_stops (dn ds tk : String) (env : LaunchEnv) (opts e : String)
    (hjpg : lista_arquivos_jpg dn env.listing ≠ [])
    (hpre : env.preset = Except.ok opts)
    (hsub : env.submit = Except.error e) :
    (starts_threads dn ds tk env).uncaught = none ∧
    Effect.writeStatus "UPLOAD_FAILED" e ∈ (starts_threads dn ds tk env).trace ∧
    Effect.removeFile tk ∈ (starts_threads dn ds tk env).trace ∧
    Effect.startRunThread ∉ (starts_threads dn ds tk env).trace ∧
    Effect.startDownloadThread ∉ (starts_threads dn ds tk env).trace ∧
    (∀ u, Effect.registryAdd u ∉ (starts_threads dn ds tk env).trace) := by
  cases hL : lista_arquivos_jpg dn env.listing with
  | nil => exact absurd hL hjpg
  | cons a t => simp [starts_threads, hL, hpre, hsub]

/-- Claim C5 witness: a failing upload at a concrete dataset. -/
theorem c5_upload_failure_stops_witness :
    (starts_threads "/data/site1" "site1" "a"
        { listing := [⟨"img1.jpg", true⟩, ⟨"a", true⟩]
          preset := Except.ok "preset-options"
          submit := Except.error "NodeConnectionError" }).uncaught = none ∧
    Effect.writeStatus "UPLOAD_FAILED" "NodeConnectionError" ∈
      (starts_threads "/data/site1" "site1" "a"
        { listing := [⟨"img1.jpg", true⟩, ⟨"a", true⟩]
          preset := Except.ok "preset-options"
          submit := Except.error "NodeConnectionError" }).trace ∧
    Effect.removeFile "a" ∈
      (starts_threads "/data/site1" "site1" "a"
        { listing := [⟨"img1.jpg", true⟩, ⟨"a", true⟩]
          preset := Except.ok "preset-options"
          submit := Except.error "NodeConnectionError" }).trace ∧
    Effect.startRunThread ∉
      (starts_threads "/data/site1" "site1" "a"
        { listing := [⟨"img1.jpg", true⟩, ⟨"a", true⟩]
          preset := Except.ok "preset-options"
          submit := Except.error "NodeConnectionError" }).trace ∧
    Effect.startDownloadThread ∉
      (starts_threads "/data/site1" "site1" "a"
        { listing := [⟨"img1.jpg", true⟩, ⟨"a", true⟩]
          preset := Except.ok "preset-options"
          submit := Except.error "NodeConnectionError" }).trace ∧
    (∀ u, Effect.registryAdd u ∉
      (starts_threads "/data/site1" "site1" "a"
        { listing := [⟨"img1.jpg", true⟩, ⟨"a", true⟩]
          preset := Except.ok "preset-options"
          submit := Except.error "NodeConnectionError" }).trace) :=
  c5_upload_failure_stops "/data/site1" "site1" "a" _ "preset-options" "NodeConnectionError"
    (by decide) rfl rfl

/-- Launch environment for the C7 scenario: one image present, the preset
file missing. -/
def c7Env : LaunchEnv :=
  { listing := [⟨"img1.jpg", true⟩, ⟨"a", true⟩]
    preset := Except.error "FileNotFoundError: a.preset"
    submit := Except.ok ⟨"u1", "site1", TaskStatus.RUNNING, ""⟩ }

/-- Claim C7 counterexample: a preset-load failure is not contained by the
repository's code.  At this concrete trigger, the dispatcher-plus-launcher
call chain ends with the preset exception escaping uncaught instead of
returning normally, so nothing in this program confines the failure to the
activation. -/
theorem c7_counterexample :
    (dispatch_created ["a"] false "/data/site1/a" c7Env).uncaught =
        some "FileNotFoundError: a.preset" ∧
    ¬ (dispatch_created ["a"] false "/data/site1/a" c7Env).uncaught = none := by
  decide

/-- Claim C7 amended: a preset-load failure writes no marker, creates no
job and starts no worker for the activation, but the launcher does not catch
it — the exception propagates out of the repository's code into the external
event-dispatch mechanism. -/
theorem c7_amended_preset_failure_escapes (dn ds tk : String) (env : LaunchEnv) (e : String)
    (hjpg : lista_arquivos_jpg dn env.listing ≠ [])
    (hpre : env.preset = Except.error e) :
    (starts_threads dn ds tk env).trace = [Effect.loadPreset tk] ∧
    (starts_threads dn ds tk env).uncaught = some e := by
  cases hL : lista_arquivos_jpg dn env.listing with
  | nil => exact absurd hL hjpg
  | cons a t => simp [starts_threads, hL, hpre]

/-- Claim C7 witness: the amended behaviour at the concrete scenario. -/
theorem c7_amended_preset_failure_escapes_witness :
    (starts_threads "/data/site1" "site1" "a" c7Env).trace = [Effect.loadPreset "a"] ∧
    (starts_threads "/data/site1" "site1" "a" c7Env).uncaught =
      some "FileNotFoundError: a.preset" :=
  c7_amended_preset_failure_escapes "/data/site1" "site1" "a" c7Env
    "FileNotFoundError: a.preset" (by decide) rfl

/-- Launch environment for the C1 scenario: the transient `TASK_RUNNING`
marker of an earlier activation is still present next to an image and the
freshly re-created trigger file. -/
def c1Env : LaunchEnv :=
  { listing := [⟨"TASK_RUNNING", true⟩, ⟨"img1.JPG", true⟩, ⟨"a", true⟩]
    preset := Except.ok "preset-options"
    submit := Except.ok ⟨"uuid-2", "site1", TaskStatus.RUNNING, ""⟩ }

/-- Claim C1 counterexample: duplicate suppression does not exist.  With the
`TASK_RUNNING` marker still present in the dataset directory, a second
trigger event for the same token flows through the dispatcher and the
launcher and creates another job. -/
theorem c1_counterexample :
    (c1Env.listing.any (fun e => e.name == "TASK_RUNNING" && e.is_file)) = true ∧
    ((dispatch_created ["a"] false "/data/site1/a" c1Env).trace.filter isSubmit).length = 1 := by
  decide

/-- Claim C1 amended: neither the dispatcher nor the launcher consults the
`TASK_RUNNING` marker or any registry before launching; every trigger whose
dataset has an image and whose preset load and submission succeed creates
exactly one job, with no regard to any in-flight job for the same dataset
and token. -/
theorem c1_amended_no_duplicate_suppression (dn ds tk : String) (env : LaunchEnv)
    (opts : String) (i : TaskInfo)
    (hjpg : lista_arquivos_jpg dn env.listing ≠ [])
    (hpre : env.preset = Except.ok opts)
    (hsub : env.submit = Except.ok i) :
    ((starts_threads dn ds tk env).trace.filter isSubmit).length = 1 := by
  cases hL : lista_arquivos_jpg dn env.listing with
  | nil => exact absurd hL hjpg
  | cons a t => simp [starts_threads, hL, hpre, hsub, isSubmit, List.filter]

/-- Claim C1 witness: one job is created even while `TASK_RUNNING` is
present. -/
theorem c1_amended_no_duplicate_suppression_witness :
    ((starts_threads "/data/site1" "site1" "a" c1Env).trace.filter isSubmit).length = 1 :=
  c1_amended_no_duplicate_suppression "/data/site1" "site1" "a" c1Env
    "preset-options" ⟨"uuid-2", "site1", TaskStatus.RUNNING, ""⟩ (by decide) rfl rfl

/-- Claim C9 counterexample: token matching is not case-insensitive on the
token side.  A preset file `A.preset` configures the token `A`; an event for
`A.trigger` has exactly that base name once the extension is stripped, yet
the dispatcher ignores it, because only the event's name is lowercased. -/
theorem c9_counterexample :
    computeTokens ["A.preset"] = ["A"] ∧
    (splitext (basename "/watch/ds1/A.trigger")).1 = "A" ∧
    on_created (computeTokens ["A.preset"]) false "/watch/ds1/A.trigger" = none := by
  decide

theorem toLower_not_upper (c : Char) : isAsciiUpper (Char.toLower c) = false := by
  unfold Char.toLower
  dsimp only
  split
  next h =>
    have hv : Nat.isValidChar (c.toNat + 32) := Or.inl (by omega)
    have hval : (Char.ofNat (c.toNat + 32)).toNat = c.toNat + 32 := by
      rw [Char.ofNat, dif_pos hv]
      rfl
    simp only [isAsciiUpper, decide_eq_false_iff_not, hval]
    omega
  next h =>
    simp only [isAsciiUpper, decide_eq_false_iff_not]
    exact h

theorem lowerStr_no_upper (s : String) :
    ∀ c ∈ (lowerStr s).data, isAsciiUpper c = false := by
  intro c hc
  simp only [lowerStr, List.mem_map] at hc
  obtain ⟨a, ha, rfl⟩ := hc
  exact toLower_not_upper a

/-- Claim C9 amended: the dispatcher lowercases only the event's
extension-stripped base name and compares it verbatim with the configured
tokens, which are taken from the preset file names without case folding.
For ASCII names (where the embedded case folding coincides exactly with
str.lower): an event whose stripped base name equals an all-lowercase
configured token up to letter case is recognized with that token, and an
event whose lowercased stripped base name is not a configured token is
ignored.  A token containing an ASCII uppercase letter A-Z never matches
any event, since lowercasing never yields such a letter. -/
theorem c9_amended_lowercase_matching (tokens : List String) (tk src_path : String) :
    (tk ∈ tokens → isAsciiStr tk = true → lowerStr tk = tk →
       isAsciiStr (splitext (basename src_path)).1 = true →
       lowerStr (splitext (basename src_path)).1 = lowerStr tk →
       on_created tokens false src_path =
         some (dirname src_path, basename (dirname src_path), tk)) ∧
    (isAsciiStr (splitext (basename src_path)).1 = true →
       parsetk src_path ∉ tokens → ∀ b, on_created tokens b src_path = none) ∧
    ((∃ c ∈ tk.data, isAsciiUpper c = true) →
       ∀ b dn ds, on_created tokens b src_path ≠ some (dn, ds, tk)) := by
  refine ⟨?_, ?_, ?_⟩
  · intro h _ hlow _ hcase
    have hpt : parsetk src_path = tk := by
      unfold parsetk
      rw [hcase, hlow]
    simp [on_created, hpt, h]
  · intro _ hn b
    cases b with
    | true => simp [on_created]
    | false => simp [on_created, hn]
  · rintro ⟨c, hc, hup⟩ b dn ds heq
    cases b with
    | true => simp [on_created] at heq
    | false =>
      by_cases hm : parsetk src_path ∈ tokens
      · simp only [on_created, if_neg Bool.false_ne_true, if_pos hm, Option.some.injEq,
          Prod.mk.injEq] at heq
        have htk : parsetk src_path = tk := heq.2.2
        have hmem : c ∈ (parsetk src_path).data := by
          rw [htk]
          exact hc
        have hfalse : isAsciiUpper c = false :=
          lowerStr_no_upper (splitext (basename src_path)).1 c hmem
        rw [hup] at hfalse
        cases hfalse
      · simp [on_created, hm] at heq

/-- Claim C9 witness: by the amended rule, the lowercase token `a` matches
the uppercase trigger name `A.JPG`, and the uppercase-containing token `B`
matches no event, not even one literally named `B.trigger`. -/
theorem c9_amended_lowercase_matching_witness :
    on_created ["a"] false "/watch/ds1/A.JPG" = some ("/watch/ds1", "ds1", "a") ∧
    on_created ["a", "B"] false "/watch/ds1/B.trigger" ≠ some ("/watch/ds1", "ds1", "B") :=
  ⟨(c9_amended_lowercase_matching ["a"] "a" "/watch/ds1/A.JPG").1
      (by decide) (by decide) (by decide) (by decide) (by decide),
   (c9_amended_lowercase_matching ["a", "B"] "B" "/watch/ds1/B.trigger").2.2
      ⟨'B', by decide, by decide⟩ false "/watch/ds1" "ds1"⟩

theorem c2_terminal_count (env : DownloadEnv) (destination dn : String) :
    ((download_assets env destination dn).filter isTerminalMarker).length = 1 := by
  obtain ⟨info, zipR, renR, canR⟩ := env
  rcases info with e | i
  · rfl
  · obtain ⟨uuid, name, status, lastErr⟩ := i
    cases status <;> rcases zipR with ez | fz <;> rcases renR with er | u <;>
      rcases canR with ec | v <;> rfl

/-- Claim C2: once the asset downloader runs, it writes exactly one terminal
marker in every outcome; an exception from the final status query or from
the download is answered with a `FAILED` marker carrying the exception
detail; and the removal of the transient `TASK_RUNNING` marker is,
unconditionally, the final step. -/
theorem c2_downloader_always_terminal (env : DownloadEnv) (destination dn : String) :
    (∃ pre, download_assets env destination dn = pre ++ [Effect.removeFile "TASK_RUNNING"]) ∧
    ((download_assets env destination dn).filter isTerminalMarker).length = 1 ∧
    (∀ e, env.info = Except.error e →
       Effect.writeStatus "FAILED" e ∈ download_assets env destination dn) ∧
    (∀ i e, env.info = Except.ok i → i.status = TaskStatus.COMPLETED →
       env.zipResult = Except.error e →
       Effect.writeStatus "FAILED" e ∈ download_assets env destination dn) := by
  refine ⟨⟨download_assets_body env destination dn, rfl⟩,
    c2_terminal_count env destination dn, ?_, ?_⟩
  · intro e he
    simp [download_assets, download_assets_body, he]
  · intro i e hi hst hz
    simp [download_assets, download_assets_body, hi, hst, hz]

/-- Claim C2 witness: a failing final status query still produces a `FAILED`
marker and removal of `TASK_RUNNING` as the last step. -/
theorem c2_downloader_always_terminal_witness :
    (∃ pre, download_assets
        { info := Except.error "NodeConnectionError"
          zipResult := Except.ok "/out/u1-all.zip"
          renameResult := Except.ok ()
          cancelResult := Except.ok () } "/out" "/data/site1" =
      pre ++ [Effect.removeFile "TASK_RUNNING"]) ∧
    Effect.writeStatus "FAILED" "NodeConnectionError" ∈ download_assets
        { info := Except.error "NodeConnectionError"
          zipResult := Except.ok "/out/u1-all.zip"
          renameResult := Except.ok ()
          cancelResult := Except.ok () } "/out" "/data/site1" :=
  ⟨(c2_downloader_always_terminal
      { info := Except.error "NodeConnectionError"
        zipResult := Except.ok "/out/u1-all.zip"
        renameResult := Except.ok ()
        cancelResult := Except.ok () } "/out" "/data/site1").1,
   (c2_downloader_always_terminal
      { info := Except.error "NodeConnectionError"
        zipResult := Except.ok "/out/u1-all.zip"
        renameResult := Except.ok ()
        cancelResult := Except.ok () } "/out" "/data/site1").2.2.1
     "NodeConnectionError" rfl⟩

/-- Claim C4: case-by-case disposition of the asset downloader, when the
operation performed in the chosen branch succeeds: COMPLETED downloads the
artifact, renames it with the job identifier replaced by the dataset name,
and writes `DOWNLOAD_COMPLETED` with the new path; FAILED writes `FAILED`
with the last recorded error; CANCELED writes `CANCELED` with the job
identifier; any other observed state sends a cancel request and then writes
`CANCELED` with the job identifier. -/
theorem c4_download_dispositions (env : DownloadEnv) (destination dn : String)
    (i : TaskInfo) (hinfo : env.info = Except.ok i) :
    (∀ fnzip, i.status = TaskStatus.COMPLETED → env.zipResult = Except.ok fnzip →
       env.renameResult = Except.ok () →
       download_assets env destination dn =
         [Effect.downloadZip destination,
          Effect.renameFile fnzip (fnzip.replace i.uuid i.name),
          Effect.writeStatus "DOWNLOAD_COMPLETED" (fnzip.replace i.uuid i.name),
          Effect.removeFile "TASK_RUNNING"]) ∧
    (i.status = TaskStatus.FAILED →
       download_assets env destination dn =
         [Effect.writeStatus "FAILED" i.last_error, Effect.removeFile "TASK_RUNNING"]) ∧
    (i.status = TaskStatus.CANCELED →
       download_assets env destination dn =
         [Effect.writeStatus "CANCELED" i.uuid, Effect.removeFile "TASK_RUNNING"]) ∧
    (i.status ≠ TaskStatus.COMPLETED → i.status ≠ TaskStatus.FAILED →
       i.status ≠ TaskStatus.CANCELED → env.cancelResult = Except.ok () →
       download_assets env destination dn =
         [Effect.cancelTask i.uuid, Effect.writeStatus "CANCELED" i.uuid,
          Effect.removeFile "TASK_RUNNING"]) := by
  refine ⟨?_, ?_, ?_, ?_⟩
  · intro fnzip hst hz hr
    simp [download_assets, download_assets_body, hinfo, hst, hz, hr]
  · intro hst
    simp [download_assets, download_assets_body, hinfo, hst]
  · intro hst
    simp [download_assets, download_assets_body, hinfo, hst]
  · intro h1 h2 h3 hc
    cases hst : i.status with
    | QUEUED => simp [download_assets, download_assets_body, hinfo, hst, hc]
    | RUNNING => simp [download_assets, download_assets_body, hinfo, hst, hc]
    | COMPLETED => exact absurd hst h1
    | FAILED => exact absurd hst h2
    | CANCELED => exact absurd hst h3

/-- Claim C4 witness: the FAILED disposition at a concrete job. -/
theorem c4_download_dispositions_witness :
    download_assets
        { info := Except.ok ⟨"u1", "site1", TaskStatus.FAILED, "Cannot process dataset"⟩
          zipResult := Except.ok "/out/u1-all.zip"
          renameResult := Except.ok ()
          cancelResult := Except.ok () } "/out" "/data/site1" =
      [Effect.writeStatus "FAILED" "Cannot process dataset",
       Effect.removeFile "TASK_RUNNING"] :=
  (c4_download_dispositions
      { info := Except.ok ⟨"u1", "site1", TaskStatus.FAILED, "Cannot process dataset"⟩
        zipResult := Except.ok "/out/u1-all.zip"
        renameResult := Except.ok ()
        cancelResult := Except.ok () } "/out" "/data/site1"
      ⟨"u1", "site1", TaskStatus.FAILED, "Cannot process dataset"⟩ rfl).2.1 rfl

theorem countEff_cancelStep (co : String → Except String Unit) (uuid u : String) :
    countEff (cancelStep co uuid) (Effect.cancelTask u) = if u = uuid then 1 else 0 := by
  by_cases h : u = uuid
  · subst h
    cases hco : co u <;> simp [cancelStep, countEff, hco, List.filter]
  · have h' : ¬ uuid = u := fun hh => h hh.symm
    cases hco : co uuid <;> simp [cancelStep, countEff, hco, List.filter, h, h']

theorem countEff_cancelLoop (co : String → Except String Unit) (u : String) :
    ∀ l : List String, l.Nodup →
      countEff (cancelLoop co l) (Effect.cancelTask u) = if u ∈ l then 1 else 0 := by
  intro l
  induction l with
  | nil => intro _; simp [cancelLoop, countEff]
  | cons uuid rest ih =>
    intro hnd
    rw [cancelLoop, countEff_append, countEff_cancelStep, ih hnd.of_cons]
    by_cases h : u = uuid
    · subst h
      have hu : u ∉ rest := (List.nodup_cons.mp hnd).1
      simp [hu]
    · simp [h, List.mem_cons]

theorem log_mem_cancelLoop (co : String → Except String Unit) (u e : String)
    (he : co u = Except.error e) :
    ∀ l : List String, u ∈ l →
      Effect.log ("Error canceling the task " ++ u) ∈ cancelLoop co l := by
  intro l
  induction l with
  | nil => intro h; cases h
  | cons uuid rest ih =>
    intro hu
    rw [cancelLoop]
    rcases List.mem_cons.mp hu with h1 | h1
    · subst h1
      exact List.mem_append.mpr (Or.inl (by simp [cancelStep, he]))
    · exact List.mem_append.mpr (Or.inr (ih h1))

/-- Claim C8: at shutdown, every identifier of the registry snapshot receives
exactly one cancel request, identifiers outside the snapshot receive none,
and a failing cancellation is logged without stopping the loop (every other
identifier still receives its request, whatever the outcomes elsewhere). -/
theorem c8_shutdown_cancels_each_once (co : String → Except String Unit)
    (l : List String) (hnd : l.Nodup) (u : String) :
    countEff (cancel_all_pending_tasks co l) (Effect.cancelTask u) =
      (if u ∈ l then 1 else 0) ∧
    (∀ e, u ∈ l → co u = Except.error e →
       Effect.log ("Error canceling the task " ++ u) ∈ cancel_all_pending_tasks co l) := by
  constructor
  · have hhead : countEff (cancel_all_pending_tasks co l) (Effect.cancelTask u)
        = countEff (cancelLoop co l) (Effect.cancelTask u) := by
      simp [cancel_all_pending_tasks, countEff, List.filter]
    rw [hhead, countEff_cancelLoop co u l hnd]
  · intro e hu he
    exact List.mem_cons_of_mem _ (log_mem_cancelLoop co u e he l hu)

/-- Claim C8 witness: two registered jobs, the second cancellation failing;
each receives exactly one cancel request and the failure is logged. -/
theorem c8_shutdown_cancels_each_once_witness :
    (countEff (cancel_all_pending_tasks
        (fun u => if u = "u2" then Except.error "NodeResponseError" else Except.ok ())
        ["u1", "u2"]) (Effect.cancelTask "u2") = 1) ∧
    Effect.log ("Error canceling the task " ++ "u2") ∈ cancel_all_pending_tasks
        (fun u => if u = "u2" then Except.error "NodeResponseError" else Except.ok ())
        ["u1", "u2"] :=
  ⟨((c8_shutdown_cancels_each_once
        (fun u => if u = "u2" then Except.error "NodeResponseError" else Except.ok ())
        ["u1", "u2"] (by decide) "u2").1).trans (by decide),
   (c8_shutdown_cancels_each_once
        (fun u => if u = "u2" then Except.error "NodeResponseError" else Except.ok ())
        ["u1", "u2"] (by decide) "u2").2 "NodeResponseError" (by decide) rfl⟩

end AutoOdm
